import Mathlib

/-!
Shallow embedding of the Olist feature pipeline (src/olist/data.py and
src/olist/order.py).  DataFrames are lists of typed rows; nullable columns
(pandas NaN / NaT) are Option-valued; timestamps are rationals measured in
days, so the division by a one-day timedelta in the source is absorbed into
the representation.  Joins, groupbys and dropna are spelled out as list
operations mirroring pandas semantics on the columns the pipeline touches.
-/

namespace Olist

/-- first-occurrence deduplication of a list of keys; models the group keys of
a pandas groupby.  Key order here is first occurrence; groupby sorts keys, but
every downstream use joins on these unique keys, where order is irrelevant. -/
def distinctKeys {α : Type} [DecidableEq α] (xs : List α) : List α :=
  xs.foldl (fun acc x => if x ∈ acc then acc else acc ++ [x]) []

/-- insertion step of a sort by a boolean comparison. -/
def insertBy {α : Type} (le : α → α → Bool) (x : α) : List α → List α
  | [] => [x]
  | y :: ys => if le x y then x :: y :: ys else y :: insertBy le x ys

/-- insertion sort by a boolean comparison; models pandas sort_values (whose
default quicksort is not stable, so any deterministic reordering is a faithful
model of the sorted frame). -/
def sortBy {α : Type} (le : α → α → Bool) (xs : List α) : List α :=
  xs.foldr (insertBy le) []

/-- subtraction of nullable values: pandas NaT/NaN propagates through
subtraction. -/
def optSub (a b : Option ℚ) : Option ℚ :=
  match a, b with
  | some x, some y => some (x - y)
  | _, _ => none

/-- arithmetic mean of a list of rationals; models the pandas mean aggregation
(only ever applied to nonempty groups below). -/
def ratMean (xs : List ℚ) : ℚ := xs.sum / (xs.length : ℚ)

/-- inner join of two frames, pandas merge semantics and row order: for each
left row in order, all matching right rows in order. -/
def innerJoin {α β γ κ : Type} [BEq κ] (k₁ : α → κ) (k₂ : β → κ)
    (f : α → β → γ) (xs : List α) (ys : List β) : List γ :=
  xs.flatMap fun a => (ys.filter fun b => k₂ b == k₁ a).map (f a)

/-- error taxonomy named by the specification, together with the built-in
Python error that the source can actually raise (os.listdir on a missing
directory raises FileNotFoundError).  The spec-named custom errors appear
nowhere in the source code. -/
inductive PyError
  | fileNotFoundError
  | missingDataError
  | missingColumnError
  | emptyJoinResultError
  | malformedDateError
  deriving DecidableEq

/-- key derivation of Olist.get_data: strips every occurrence of the filename
prefix and suffix conventions, as str.replace does. -/
def key_from_file_name (filename : String) : String :=
  ((filename.replace "olist_" "").replace "_dataset.csv" "").replace ".csv" ""

/-- Python dict insertion: overwrites the value of an existing key, appends a
new key at the end. -/
def dictInsert (m : List (String × String)) (k v : String) : List (String × String) :=
  if m.any fun p => p.1 == k then m.map fun p => if p.1 == k then (k, v) else p
  else m ++ [(k, v)]

/-- Olist.get_data from src/olist/data.py.  The directory listing argument is
none when the csv directory does not exist, in which case os.listdir raises
FileNotFoundError; otherwise every listed file is loaded and keyed by
key_from_file_name (an empty directory yields an empty dict, with no error).
The loaded frame is represented by its file name; the .DS_Store removal in the
source is a filesystem side effect with no bearing on the returned mapping. -/
def get_data (listing : Option (List String)) : Except PyError (List (String × String)) :=
  match listing with
  | none => Except.error PyError.fileNotFoundError
  | some files => Except.ok (files.foldl (fun m f => dictInsert m (key_from_file_name f) f) [])

/-- row of the orders table; timestamp columns are nullable (NaT). -/
structure OrderRow where
  order_id : String
  customer_id : String
  order_status : String
  order_purchase_timestamp : Option ℚ
  order_delivered_customer_date : Option ℚ
  order_estimated_delivery_date : Option ℚ
  deriving DecidableEq

/-- row of the order_reviews table. -/
structure ReviewRow where
  review_id : String
  order_id : String
  review_score : Option ℚ
  deriving DecidableEq

/-- row of the order_items table; the key attributes of the data model are
taken as present (non-null). -/
structure OrderItemRow where
  order_id : String
  order_item_id : ℕ
  product_id : String
  seller_id : String
  price : ℚ
  freight_value : ℚ
  deriving DecidableEq

/-- row of the sellers table; seller_zip stands for the source column
seller_zip_code_prefix. -/
structure SellerRow where
  seller_id : String
  seller_zip : ℕ
  seller_city : String
  seller_state : String
  deriving DecidableEq

/-- row of the customers table; customer_zip stands for the source column
customer_zip_code_prefix. -/
structure CustomerRow where
  customer_id : String
  customer_zip : ℕ
  customer_city : String
  customer_state : String
  deriving DecidableEq

/-- row of the geolocation table; geolocation_zip stands for the source column
geolocation_zip_code_prefix, which is not unique across rows.  The coordinate
columns are numeric and non-null in the loaded table. -/
structure GeoRow where
  geolocation_zip : ℕ
  geolocation_lat : ℚ
  geolocation_lng : ℚ
  deriving DecidableEq

/-- the dictionary of loaded tables (self.data in the source), restricted to
the columns the pipeline reads. -/
structure Dataset where
  orders : List OrderRow
  order_reviews : List ReviewRow
  order_items : List OrderItemRow
  sellers : List SellerRow
  customers : List CustomerRow
  geolocation : List GeoRow
  deriving DecidableEq

/-- intermediate frame of get_matching_table after the first outer merge. -/
structure OrdRev where
  customer_id : Option String
  order_id : String
  review_id : Option String
  deriving DecidableEq

/-- row of the matching table; all reference columns other than the join key
order_id are nullable because both merges are outer. -/
structure MatchingRow where
  customer_id : Option String
  order_id : String
  review_id : Option String
  product_id : Option String
  seller_id : Option String
  deriving DecidableEq

/-- outer merge of Orders[customer_id, order_id] with OrderReviews[order_id,
review_id] on order_id: every matched pair, left rows without a match with a
null review_id, and right rows without a match with a null customer_id.
Pandas sorts the keys of an outer merge; row order is irrelevant to every use
of this frame, so first-occurrence order is kept. -/
def merge_orders_reviews (orders : List OrderRow) (reviews : List ReviewRow) : List OrdRev :=
  (orders.flatMap fun o =>
    if (reviews.filter fun r => r.order_id == o.order_id).isEmpty then
      [{ customer_id := some o.customer_id, order_id := o.order_id, review_id := none }]
    else (reviews.filter fun r => r.order_id == o.order_id).map fun r =>
      { customer_id := some o.customer_id, order_id := o.order_id, review_id := some r.review_id }) ++
  ((reviews.filter fun r => !(orders.any fun o => o.order_id == r.order_id)).map fun r =>
    { customer_id := none, order_id := r.order_id, review_id := some r.review_id })

/-- outer merge of the previous frame with OrderItems[order_id, product_id,
seller_id] on order_id, with the same null-filling discipline. -/
def merge_ordrev_items (lhs : List OrdRev) (items : List OrderItemRow) : List MatchingRow :=
  (lhs.flatMap fun m =>
    if (items.filter fun it => it.order_id == m.order_id).isEmpty then
      [{ customer_id := m.customer_id, order_id := m.order_id, review_id := m.review_id,
         product_id := none, seller_id := none }]
    else (items.filter fun it => it.order_id == m.order_id).map fun it =>
      { customer_id := m.customer_id, order_id := m.order_id, review_id := m.review_id,
        product_id := some it.product_id, seller_id := some it.seller_id }) ++
  ((items.filter fun it => !(lhs.any fun m => m.order_id == it.order_id)).map fun it =>
    { customer_id := none, order_id := it.order_id, review_id := none,
      product_id := some it.product_id, seller_id := some it.seller_id })

/-- Olist.get_matching_table from src/olist/data.py: the outer join chain
Orders with OrderReviews with OrderItems, both joins on order_id. -/
def get_matching_table (d : Dataset) : List MatchingRow :=
  merge_ordrev_items (merge_orders_reviews d.orders d.order_reviews) d.order_items

/-- the clamp applied to the delay column in get_wait_time: a negative delay
is replaced by its absolute value and any other is mapped to 0.  On a missing
value (NaN) the Python comparison NaN < 0 is false, so the zero branch is
taken and the result is 0, not null. -/
def absolute_delay (delay : Option ℚ) : ℚ :=
  match delay with
  | some d => if d < 0 then -d else 0
  | none => 0

/-- output row of get_wait_time. -/
structure WaitTimeRow where
  order_id : String
  wait_time : Option ℚ
  expected_wait_time : Option ℚ
  delay_vs_expected : ℚ
  deriving DecidableEq

/-- per-row computation of get_wait_time: the three date differences in days,
with the clamp on delay_vs_expected. -/
def waitTimeRow (o : OrderRow) : WaitTimeRow :=
  { order_id := o.order_id
    wait_time := optSub o.order_delivered_customer_date o.order_purchase_timestamp
    expected_wait_time := optSub o.order_estimated_delivery_date o.order_purchase_timestamp
    delay_vs_expected :=
      absolute_delay (optSub o.order_estimated_delivery_date o.order_delivered_customer_date) }

/-- Order.get_wait_time from src/olist/order.py: keeps only orders with
status delivered when is_delivered is true, then computes the wait-time
columns row by row. -/
def get_wait_time (orders : List OrderRow) (is_delivered : Bool) : List WaitTimeRow :=
  (if is_delivered then orders.filter fun o => o.order_status == "delivered" else orders).map
    waitTimeRow

/-- indicator for a five-star review score (a missing score matches neither
branch and yields 0). -/
def dim_five_star (score : Option ℚ) : ℚ := if score = some 5 then 1 else 0

/-- indicator for a one-star review score. -/
def dim_one_star (score : Option ℚ) : ℚ := if score = some 1 then 1 else 0

/-- output row of get_review_score. -/
structure ReviewScoreRow where
  order_id : String
  dim_is_five_star : ℚ
  dim_is_one_star : ℚ
  review_score : Option ℚ
  deriving DecidableEq

/-- Order.get_review_score from src/olist/order.py. -/
def get_review_score (reviews : List ReviewRow) : List ReviewScoreRow :=
  reviews.map fun r =>
    { order_id := r.order_id, dim_is_five_star := dim_five_star r.review_score,
      dim_is_one_star := dim_one_star r.review_score, review_score := r.review_score }

/-- output row of get_number_products. -/
structure NumberProductsRow where
  order_id : String
  number_of_products : ℕ
  deriving DecidableEq

/-- Order.get_number_products from src/olist/order.py: groups order_items by
order_id, counts the rows of each group, and sorts by the count. -/
def get_number_products (items : List OrderItemRow) : List NumberProductsRow :=
  sortBy (fun a b => Nat.ble a.number_of_products b.number_of_products)
    ((distinctKeys (items.map OrderItemRow.order_id)).map fun oid =>
      { order_id := oid,
        number_of_products := (items.filter fun it => it.order_id == oid).length })

/-- output row of get_number_sellers. -/
structure NumberSellersRow where
  order_id : String
  number_of_sellers : ℕ
  deriving DecidableEq

/-- Order.get_number_sellers from src/olist/order.py: groups order_items by
order_id, counts the distinct seller ids of each group, and sorts by the
count. -/
def get_number_sellers (items : List OrderItemRow) : List NumberSellersRow :=
  sortBy (fun a b => Nat.ble a.number_of_sellers b.number_of_sellers)
    ((distinctKeys (items.map OrderItemRow.order_id)).map fun oid =>
      { order_id := oid,
        number_of_sellers :=
          (distinctKeys ((items.filter fun it => it.order_id == oid).map
            OrderItemRow.seller_id)).length })

/-- output row of get_price_and_freight. -/
structure PriceFreightRow where
  order_id : String
  price : ℚ
  freight_value : ℚ
  deriving DecidableEq

/-- Order.get_price_and_freight from src/olist/order.py: groups order_items by
order_id and sums price and freight_value per group. -/
def get_price_and_freight (items : List OrderItemRow) : List PriceFreightRow :=
  (distinctKeys (items.map OrderItemRow.order_id)).map fun oid =>
    { order_id := oid,
      price := ((items.filter fun it => it.order_id == oid).map OrderItemRow.price).sum,
      freight_value :=
        ((items.filter fun it => it.order_id == oid).map OrderItemRow.freight_value).sum }

/-- deduplication of the geolocation table: groupby on the zip prefix keeping
the first row of each group (the coordinate columns are non-null, so pandas
groupby-first is the first occurrence).  Group keys keep first-occurrence
order; groupby sorts them, but the frame is only used through joins on its
now-unique key, where order is irrelevant. -/
def geo_dedup (geo : List GeoRow) : List GeoRow :=
  (distinctKeys (geo.map GeoRow.geolocation_zip)).filterMap fun z =>
    geo.find? fun g => g.geolocation_zip == z

/-- row of the sellers frame after the left join with deduplicated
geolocation: coordinates are null when the seller zip prefix has no
geolocation row. -/
structure SellerGeoRow where
  seller_id : String
  seller_zip : ℕ
  seller_city : String
  seller_state : String
  geolocation_lat : Option ℚ
  geolocation_lng : Option ℚ
  deriving DecidableEq

/-- left join of sellers with the deduplicated geolocation on the zip prefix;
the right key is unique, so each left row yields exactly one row. -/
def sellers_geo (d : Dataset) : List SellerGeoRow :=
  d.sellers.map fun s =>
    match (geo_dedup d.geolocation).find? fun g => g.geolocation_zip == s.seller_zip with
    | some g =>
      { seller_id := s.seller_id, seller_zip := s.seller_zip, seller_city := s.seller_city,
        seller_state := s.seller_state, geolocation_lat := some g.geolocation_lat,
        geolocation_lng := some g.geolocation_lng }
    | none =>
      { seller_id := s.seller_id, seller_zip := s.seller_zip, seller_city := s.seller_city,
        seller_state := s.seller_state, geolocation_lat := none, geolocation_lng := none }

/-- row of the customers frame after the left join with deduplicated
geolocation. -/
structure CustomerGeoRow where
  customer_id : String
  customer_zip : ℕ
  customer_city : String
  customer_state : String
  geolocation_lat : Option ℚ
  geolocation_lng : Option ℚ
  deriving DecidableEq

/-- left join of customers with the deduplicated geolocation on the zip
prefix. -/
def customers_geo (d : Dataset) : List CustomerGeoRow :=
  d.customers.map fun c =>
    match (geo_dedup d.geolocation).find? fun g => g.geolocation_zip == c.customer_zip with
    | some g =>
      { customer_id := c.customer_id, customer_zip := c.customer_zip,
        customer_city := c.customer_city, customer_state := c.customer_state,
        geolocation_lat := some g.geolocation_lat, geolocation_lng := some g.geolocation_lng }
    | none =>
      { customer_id := c.customer_id, customer_zip := c.customer_zip,
        customer_city := c.customer_city, customer_state := c.customer_state,
        geolocation_lat := none, geolocation_lng := none }

/-- row of the matching table merged with both geocoded frames, with the
coordinate columns suffixed per side as in the source. -/
structure MatchingGeoRow where
  customer_id : Option String
  order_id : String
  review_id : Option String
  product_id : Option String
  seller_id : Option String
  seller_zip : ℕ
  seller_city : String
  seller_state : String
  geolocation_lat_seller : Option ℚ
  geolocation_lng_seller : Option ℚ
  customer_zip : ℕ
  customer_city : String
  customer_state : String
  geolocation_lat_customer : Option ℚ
  geolocation_lng_customer : Option ℚ
  deriving DecidableEq

/-- the two inner merges of get_distance_seller_customer: matching table with
sellers_geo on seller_id, then with customers_geo on customer_id. -/
def matching_geo (d : Dataset) : List MatchingGeoRow :=
  innerJoin (fun p : MatchingRow × SellerGeoRow => p.1.customer_id)
    (fun c : CustomerGeoRow => some c.customer_id)
    (fun p c =>
      { customer_id := p.1.customer_id, order_id := p.1.order_id, review_id := p.1.review_id,
        product_id := p.1.product_id, seller_id := p.1.seller_id,
        seller_zip := p.2.seller_zip, seller_city := p.2.seller_city,
        seller_state := p.2.seller_state, geolocation_lat_seller := p.2.geolocation_lat,
        geolocation_lng_seller := p.2.geolocation_lng,
        customer_zip := c.customer_zip, customer_city := c.customer_city,
        customer_state := c.customer_state, geolocation_lat_customer := c.geolocation_lat,
        geolocation_lng_customer := c.geolocation_lng })
    (innerJoin MatchingRow.seller_id (fun s : SellerGeoRow => some s.seller_id)
      Prod.mk (get_matching_table d) (sellers_geo d))
    (customers_geo d)

/-- dropna condition on the merged geo frame: true when every nullable column
of the row is present. -/
def MatchingGeoRow.complete (r : MatchingGeoRow) : Bool :=
  r.customer_id.isSome && r.review_id.isSome && r.product_id.isSome && r.seller_id.isSome &&
  r.geolocation_lat_seller.isSome && r.geolocation_lng_seller.isSome &&
  r.geolocation_lat_customer.isSome && r.geolocation_lng_customer.isSome

/-- the merged geo frame after dropna, which removes every row containing any
missing value in any column. -/
def matching_geo_clean (d : Dataset) : List MatchingGeoRow :=
  (matching_geo d).filter MatchingGeoRow.complete

/-- per-row distance: the external haversine function applied to
(seller lng, seller lat, customer lng, customer lat).  The function itself is
an external collaborator (olist.utils) and is passed in as a parameter; after
the completeness filter every coordinate is present, so the defaults are never
read. -/
def rowDistance (hav : ℚ → ℚ → ℚ → ℚ → ℚ) (r : MatchingGeoRow) : ℚ :=
  hav (r.geolocation_lng_seller.getD 0) (r.geolocation_lat_seller.getD 0)
    (r.geolocation_lng_customer.getD 0) (r.geolocation_lat_customer.getD 0)

/-- output row of get_distance_seller_customer. -/
structure DistanceRow where
  order_id : String
  distance_seller_customer : ℚ
  deriving DecidableEq

/-- Order.get_distance_seller_customer from src/olist/order.py: deduplicated
geolocation, the two geo joins, dropna over the whole frame, per-row haversine
distance, then the mean distance per order_id. -/
def get_distance_seller_customer (d : Dataset) (hav : ℚ → ℚ → ℚ → ℚ → ℚ) : List DistanceRow :=
  (distinctKeys ((matching_geo_clean d).map MatchingGeoRow.order_id)).map fun oid =>
    { order_id := oid,
      distance_seller_customer :=
        ratMean (((matching_geo_clean d).filter fun r => r.order_id == oid).map
          (rowDistance hav)) }

/-- coordinate-only completeness condition, the claim's wording of the drop
step. -/
def MatchingGeoRow.coordsComplete (r : MatchingGeoRow) : Bool :=
  r.geolocation_lat_seller.isSome && r.geolocation_lng_seller.isSome &&
  r.geolocation_lat_customer.isSome && r.geolocation_lng_customer.isSome

/-- claim wording of the distance feature, for comparison with the source
definition: identical pipeline except that only rows with missing
coordinates are dropped after the joins (the source drops every row with any
missing value, including a missing review or product reference). -/
def distance_seller_customer_claimed (d : Dataset) (hav : ℚ → ℚ → ℚ → ℚ → ℚ) :
    List DistanceRow :=
  (distinctKeys (((matching_geo d).filter MatchingGeoRow.coordsComplete).map
    MatchingGeoRow.order_id)).map fun oid =>
    { order_id := oid,
      distance_seller_customer :=
        ratMean ((((matching_geo d).filter MatchingGeoRow.coordsComplete).filter
          fun r => r.order_id == oid).map (rowDistance hav)) }

/-- frame after merging wait time with review score. -/
structure WaitReviewRow where
  order_id : String
  wait_time : Option ℚ
  expected_wait_time : Option ℚ
  delay_vs_expected : ℚ
  dim_is_five_star : ℚ
  dim_is_one_star : ℚ
  review_score : Option ℚ
  deriving DecidableEq

/-- frame after additionally merging the product count. -/
structure WaitReviewProdRow where
  order_id : String
  wait_time : Option ℚ
  expected_wait_time : Option ℚ
  delay_vs_expected : ℚ
  dim_is_five_star : ℚ
  dim_is_one_star : ℚ
  review_score : Option ℚ
  number_of_products : ℕ
  deriving DecidableEq

/-- frame after additionally merging the seller count. -/
structure WaitReviewProdSellRow where
  order_id : String
  wait_time : Option ℚ
  expected_wait_time : Option ℚ
  delay_vs_expected : ℚ
  dim_is_five_star : ℚ
  dim_is_one_star : ℚ
  review_score : Option ℚ
  number_of_products : ℕ
  number_of_sellers : ℕ
  deriving DecidableEq

/-- row of the merged training frame without the distance column. -/
structure TrainingRow where
  order_id : String
  wait_time : Option ℚ
  expected_wait_time : Option ℚ
  delay_vs_expected : ℚ
  dim_is_five_star : ℚ
  dim_is_one_star : ℚ
  review_score : Option ℚ
  number_of_products : ℕ
  number_of_sellers : ℕ
  price : ℚ
  freight_value : ℚ
  deriving DecidableEq

/-- row of the merged training frame with the distance column. -/
structure TrainingRowD where
  order_id : String
  wait_time : Option ℚ
  expected_wait_time : Option ℚ
  delay_vs_expected : ℚ
  dim_is_five_star : ℚ
  dim_is_one_star : ℚ
  review_score : Option ℚ
  number_of_products : ℕ
  number_of_sellers : ℕ
  price : ℚ
  freight_value : ℚ
  distance_seller_customer : ℚ
  deriving DecidableEq

/-- column union of a wait-time row and a review-score row. -/
def joinWaitReview (a : WaitTimeRow) (b : ReviewScoreRow) : WaitReviewRow :=
  { order_id := a.order_id, wait_time := a.wait_time,
    expected_wait_time := a.expected_wait_time, delay_vs_expected := a.delay_vs_expected,
    dim_is_five_star := b.dim_is_five_star, dim_is_one_star := b.dim_is_one_star,
    review_score := b.review_score }

/-- column union with the product count. -/
def joinProducts (a : WaitReviewRow) (b : NumberProductsRow) : WaitReviewProdRow :=
  { order_id := a.order_id, wait_time := a.wait_time,
    expected_wait_time := a.expected_wait_time, delay_vs_expected := a.delay_vs_expected,
    dim_is_five_star := a.dim_is_five_star, dim_is_one_star := a.dim_is_one_star,
    review_score := a.review_score, number_of_products := b.number_of_products }

/-- column union with the seller count. -/
def joinSellers (a : WaitReviewProdRow) (b : NumberSellersRow) : WaitReviewProdSellRow :=
  { order_id := a.order_id, wait_time := a.wait_time,
    expected_wait_time := a.expected_wait_time, delay_vs_expected := a.delay_vs_expected,
    dim_is_five_star := a.dim_is_five_star, dim_is_one_star := a.dim_is_one_star,
    review_score := a.review_score, number_of_products := a.number_of_products,
    number_of_sellers := b.number_of_sellers }

/-- column union with price and freight. -/
def joinPriceFreight (a : WaitReviewProdSellRow) (b : PriceFreightRow) : TrainingRow :=
  { order_id := a.order_id, wait_time := a.wait_time,
    expected_wait_time := a.expected_wait_time, delay_vs_expected := a.delay_vs_expected,
    dim_is_five_star := a.dim_is_five_star, dim_is_one_star := a.dim_is_one_star,
    review_score := a.review_score, number_of_products := a.number_of_products,
    number_of_sellers := a.number_of_sellers, price := b.price,
    freight_value := b.freight_value }

/-- column union with the distance feature. -/
def joinDistance (a : TrainingRow) (b : DistanceRow) : TrainingRowD :=
  { order_id := a.order_id, wait_time := a.wait_time,
    expected_wait_time := a.expected_wait_time, delay_vs_expected := a.delay_vs_expected,
    dim_is_five_star := a.dim_is_five_star, dim_is_one_star := a.dim_is_one_star,
    review_score := a.review_score, number_of_products := a.number_of_products,
    number_of_sellers := a.number_of_sellers, price := a.price,
    freight_value := a.freight_value, distance_seller_customer := b.distance_seller_customer }

/-- the five-way inner merge of get_training_data, in source order, before the
final dropna. -/
def training_set (d : Dataset) (is_delivered : Bool) : List TrainingRow :=
  innerJoin WaitReviewProdSellRow.order_id PriceFreightRow.order_id joinPriceFreight
    (innerJoin WaitReviewProdRow.order_id NumberSellersRow.order_id joinSellers
      (innerJoin WaitReviewRow.order_id NumberProductsRow.order_id joinProducts
        (innerJoin WaitTimeRow.order_id ReviewScoreRow.order_id joinWaitReview
          (get_wait_time d.orders is_delivered) (get_review_score d.order_reviews))
        (get_number_products d.order_items))
      (get_number_sellers d.order_items))
    (get_price_and_freight d.order_items)

/-- dropna condition on the training frame: all nullable columns present. -/
def TrainingRow.complete (r : TrainingRow) : Bool :=
  r.wait_time.isSome && r.expected_wait_time.isSome && r.review_score.isSome

/-- dropna condition on the training frame with distance. -/
def TrainingRowD.complete (r : TrainingRowD) : Bool :=
  r.wait_time.isSome && r.expected_wait_time.isSome && r.review_score.isSome

/-- Order.get_training_data with with_distance_seller_customer = False: the
five-way merge followed by dropna. -/
def get_training_data_no_dist (d : Dataset) (is_delivered : Bool) : List TrainingRow :=
  (training_set d is_delivered).filter TrainingRow.complete

/-- Order.get_training_data with with_distance_seller_customer = True: the
five-way merge, the inner merge with the distance feature, then dropna. -/
def get_training_data_with_dist (d : Dataset) (is_delivered : Bool)
    (hav : ℚ → ℚ → ℚ → ℚ → ℚ) : List TrainingRowD :=
  (innerJoin TrainingRow.order_id DistanceRow.order_id joinDistance
    (training_set d is_delivered) (get_distance_seller_customer d hav)).filter
    TrainingRowD.complete

/-- trivial stand-in for the external haversine function, used to evaluate the
pipeline at concrete inputs where the distance values are irrelevant. -/
def hav0 : ℚ → ℚ → ℚ → ℚ → ℚ := fun _ _ _ _ => 0

/-- concrete dataset with one delivered order, one five-star review, one item
and full geolocation coverage; delivery is one day late. -/
def exD : Dataset :=
  { orders := [{ order_id := "O1", customer_id := "C1", order_status := "delivered",
                 order_purchase_timestamp := some 0,
                 order_delivered_customer_date := some 5,
                 order_estimated_delivery_date := some 4 }]
    order_reviews := [{ review_id := "R1", order_id := "O1", review_score := some 5 }]
    order_items := [{ order_id := "O1", order_item_id := 1, product_id := "P1",
                      seller_id := "S1", price := 10, freight_value := 2 }]
    sellers := [{ seller_id := "S1", seller_zip := 100, seller_city := "sp",
                  seller_state := "SP" }]
    customers := [{ customer_id := "C1", customer_zip := 100, customer_city := "rj",
                    customer_state := "RJ" }]
    geolocation := [{ geolocation_zip := 100, geolocation_lat := 1, geolocation_lng := 2 }] }

/-- concrete dataset whose single order has no review: its matching row has a
null review_id although all coordinates are present. -/
def cexD3 : Dataset :=
  { orders := [{ order_id := "O1", customer_id := "C1", order_status := "delivered",
                 order_purchase_timestamp := some 0,
                 order_delivered_customer_date := some 1,
                 order_estimated_delivery_date := some 2 }]
    order_reviews := []
    order_items := [{ order_id := "O1", order_item_id := 1, product_id := "P1",
                      seller_id := "S1", price := 5, freight_value := 1 }]
    sellers := [{ seller_id := "S1", seller_zip := 100, seller_city := "sp",
                  seller_state := "SP" }]
    customers := [{ customer_id := "C1", customer_zip := 100, customer_city := "rj",
                    customer_state := "RJ" }]
    geolocation := [{ geolocation_zip := 100, geolocation_lat := 1, geolocation_lng := 2 }] }

/-- concrete dataset whose single delivered order has a delivered timestamp
earlier than its purchase timestamp. -/
def cexD5 : Dataset :=
  { orders := [{ order_id := "O1", customer_id := "C1", order_status := "delivered",
                 order_purchase_timestamp := some 10,
                 order_delivered_customer_date := some 4,
                 order_estimated_delivery_date := some 12 }]
    order_reviews := [{ review_id := "R1", order_id := "O1", review_score := some 5 }]
    order_items := [{ order_id := "O1", order_item_id := 1, product_id := "P1",
                      seller_id := "S1", price := 10, freight_value := 2 }]
    sellers := []
    customers := []
    geolocation := [] }

/-- concrete dataset whose review table references no order of the orders
table: the first inner join of the training merge collapses to zero rows. -/
def cexD9 : Dataset :=
  { orders := [{ order_id := "O1", customer_id := "C1", order_status := "delivered",
                 order_purchase_timestamp := some 0,
                 order_delivered_customer_date := some 2,
                 order_estimated_delivery_date := some 3 }]
    order_reviews := [{ review_id := "R1", order_id := "OX", review_score := some 4 }]
    order_items := [{ order_id := "O1", order_item_id := 1, product_id := "P1",
                      seller_id := "S1", price := 1, freight_value := 1 }]
    sellers := []
    customers := []
    geolocation := [] }

/-- concrete undelivered order: no delivered-to-customer date. -/
def oW7 : OrderRow :=
  { order_id := "O2", customer_id := "C2", order_status := "shipped",
    order_purchase_timestamp := some 0,
    order_delivered_customer_date := none,
    order_estimated_delivery_date := some 3 }

/-- concrete dataset with one undelivered order and neither reviews nor
items. -/
def dW7 : Dataset :=
  { orders := [oW7]
    order_reviews := []
    order_items := []
    sellers := []
    customers := []
    geolocation := [] }

/-- concrete item table with two items of one order sold by the same
seller. -/
def itemsW : List OrderItemRow :=
  [{ order_id := "O1", order_item_id := 1, product_id := "P1", seller_id := "S1",
     price := 10, freight_value := 2 },
   { order_id := "O1", order_item_id := 2, product_id := "P2", seller_id := "S1",
     price := 3, freight_value := 1 }]

/-- membership characterisation of the inner-join combinator. -/
theorem mem_innerJoin {α β γ κ : Type} [BEq κ] {k₁ : α → κ} {k₂ : β → κ}
    {f : α → β → γ} {xs : List α} {ys : List β} {c : γ} :
    c ∈ innerJoin k₁ k₂ f xs ys ↔
      ∃ a, a ∈ xs ∧ ∃ b, b ∈ ys ∧ (k₂ b == k₁ a) = true ∧ f a b = c := by
  simp only [innerJoin, List.mem_flatMap, List.mem_map, List.mem_filter]
  constructor
  · rintro ⟨a, ha, b, ⟨hb, hbeq⟩, hc⟩
    exact ⟨a, ha, b, hb, hbeq, hc⟩
  · rintro ⟨a, ha, b, hb, hbeq, hc⟩
    exact ⟨a, ha, b, ⟨hb, hbeq⟩, hc⟩

/-- an inner join with no key matches is empty. -/
theorem innerJoin_eq_nil {α β γ κ : Type} [BEq κ] {k₁ : α → κ} {k₂ : β → κ}
    {f : α → β → γ} {xs : List α} {ys : List β}
    (h : ∀ a ∈ xs, ∀ b ∈ ys, (k₂ b == k₁ a) = false) :
    innerJoin k₁ k₂ f xs ys = [] := by
  rw [List.eq_nil_iff_forall_not_mem]
  intro c hc
  obtain ⟨a, ha, b, hb, hbeq, _⟩ := mem_innerJoin.mp hc
  rw [h a ha b hb] at hbeq
  exact Bool.false_ne_true hbeq

/-- the clamp never produces a negative value, also on a missing input. -/
theorem absolute_delay_nonneg (x : Option ℚ) : 0 ≤ absolute_delay x := by
  cases x with
  | none => simp [absolute_delay]
  | some d =>
    by_cases h : d < 0
    · simp only [absolute_delay, if_pos h]
      linarith
    · simp [absolute_delay, h]

/-- membership is preserved by the insertion step of the sort. -/
theorem mem_insertBy {α : Type} (le : α → α → Bool) (x a : α) (xs : List α) :
    a ∈ insertBy le x xs ↔ a = x ∨ a ∈ xs := by
  induction xs with
  | nil => simp [insertBy]
  | cons y ys ih =>
    simp only [insertBy]
    split
    · simp [List.mem_cons]
    · simp only [List.mem_cons, ih]
      tauto

/-- membership is preserved by the sort. -/
theorem mem_sortBy {α : Type} (le : α → α → Bool) (xs : List α) (a : α) :
    a ∈ sortBy le xs ↔ a ∈ xs := by
  induction xs with
  | nil => simp [sortBy]
  | cons x ys ih =>
    simp only [sortBy, List.foldr_cons] at *
    rw [mem_insertBy, ih, List.mem_cons]

/-- membership characterisation of the fold behind distinctKeys. -/
theorem distinctKeys_go_mem {α : Type} [DecidableEq α] (xs : List α) (acc : List α) (a : α) :
    a ∈ xs.foldl (fun acc x => if x ∈ acc then acc else acc ++ [x]) acc ↔
      a ∈ acc ∨ a ∈ xs := by
  induction xs generalizing acc with
  | nil => simp
  | cons x ys ih =>
    simp only [List.foldl_cons]
    rw [ih]
    by_cases h : x ∈ acc
    · rw [if_pos h]
      constructor
      · rintro (h1 | h1)
        · exact Or.inl h1
        · exact Or.inr (List.mem_cons_of_mem x h1)
      · rintro (h1 | h1)
        · exact Or.inl h1
        · rcases List.mem_cons.mp h1 with h2 | h2
          · subst h2; exact Or.inl h
          · exact Or.inr h2
    · rw [if_neg h]
      simp only [List.mem_append, List.mem_singleton, List.mem_cons]
      tauto

/-- deduplication neither adds nor loses keys. -/
theorem mem_distinctKeys {α : Type} [DecidableEq α] (xs : List α) (a : α) :
    a ∈ distinctKeys xs ↔ a ∈ xs := by
  have h := distinctKeys_go_mem xs [] a
  simpa [distinctKeys] using h

/-- length bound for the fold behind distinctKeys. -/
theorem distinctKeys_go_length {α : Type} [DecidableEq α] (xs : List α) (acc : List α) :
    (xs.foldl (fun acc x => if x ∈ acc then acc else acc ++ [x]) acc).length ≤
      acc.length + xs.length := by
  induction xs generalizing acc with
  | nil => simp
  | cons x ys ih =>
    simp only [List.foldl_cons, List.length_cons]
    have h1 := ih (if x ∈ acc then acc else acc ++ [x])
    have h2 : (if x ∈ acc then acc else acc ++ [x]).length ≤ acc.length + 1 := by
      by_cases h : x ∈ acc
      · simp [h]
      · simp [h]
    omega

/-- deduplicated keys are no more numerous than the original keys. -/
theorem distinctKeys_length_le {α : Type} [DecidableEq α] (xs : List α) :
    (distinctKeys xs).length ≤ xs.length := by
  have h := distinctKeys_go_length xs []
  simpa [distinctKeys] using h

/-- per-row form of the clamp specification. -/
theorem waitTimeRow_clamp (o : OrderRow) :
    0 ≤ (waitTimeRow o).delay_vs_expected ∧
      ∀ e dl : ℚ, o.order_estimated_delivery_date = some e →
        o.order_delivered_customer_date = some dl →
        ((e - dl < 0 → (waitTimeRow o).delay_vs_expected = dl - e) ∧
         (0 ≤ e - dl → (waitTimeRow o).delay_vs_expected = 0)) := by
  constructor
  · exact absolute_delay_nonneg _
  · intro e dl he hd
    simp only [waitTimeRow, he, hd, optSub, absolute_delay]
    constructor
    · intro hlt
      rw [if_pos hlt]
      ring
    · intro hge
      rw [if_neg (not_lt.mpr hge)]

/-- every output row of get_wait_time is the row computation of some input
order. -/
theorem mem_get_wait_time {orders : List OrderRow} {is_delivered : Bool} {r : WaitTimeRow}
    (hr : r ∈ get_wait_time orders is_delivered) :
    ∃ o ∈ orders, r = waitTimeRow o := by
  simp only [get_wait_time] at hr
  split at hr
  · rw [List.mem_map] at hr
    obtain ⟨o, ho, h⟩ := hr
    exact ⟨o, List.mem_of_mem_filter ho, h.symm⟩
  · rw [List.mem_map] at hr
    obtain ⟨o, ho, h⟩ := hr
    exact ⟨o, ho, h.symm⟩

/-- C2: in the output of get_wait_time, every row's delay_vs_expected is the
magnitude of the lateness (delivered minus estimated) when the estimated
minus delivered difference is negative, is 0 when that difference is
non-negative, and is non-negative on every row. -/
theorem delay_vs_expected_clamp (orders : List OrderRow) (is_delivered : Bool) :
    ∀ r ∈ get_wait_time orders is_delivered,
      0 ≤ r.delay_vs_expected ∧
      ∃ o ∈ orders, r = waitTimeRow o ∧
        ∀ e dl : ℚ, o.order_estimated_delivery_date = some e →
          o.order_delivered_customer_date = some dl →
          ((e - dl < 0 → r.delay_vs_expected = dl - e) ∧
           (0 ≤ e - dl → r.delay_vs_expected = 0)) := by
  intro r hr
  obtain ⟨o, ho, rfl⟩ := mem_get_wait_time hr
  obtain ⟨h1, h2⟩ := waitTimeRow_clamp o
  exact ⟨h1, o, ho, rfl, h2⟩

/-- witness for C2 at a concrete one-day-late order. -/
theorem delay_vs_expected_clamp_witness :
    0 ≤ (⟨"O1", some 5, some 4, 1⟩ : WaitTimeRow).delay_vs_expected ∧
      ∃ o ∈ exD.orders, (⟨"O1", some 5, some 4, 1⟩ : WaitTimeRow) = waitTimeRow o ∧
        ∀ e dl : ℚ, o.order_estimated_delivery_date = some e →
          o.order_delivered_customer_date = some dl →
          ((e - dl < 0 →
              (⟨"O1", some 5, some 4, 1⟩ : WaitTimeRow).delay_vs_expected = dl - e) ∧
           (0 ≤ e - dl →
              (⟨"O1", some 5, some 4, 1⟩ : WaitTimeRow).delay_vs_expected = 0)) :=
  delay_vs_expected_clamp exD.orders true ⟨"O1", some 5, some 4, 1⟩ (by
    simp only [get_wait_time, exD, List.filter_cons, List.filter_nil]
    norm_num [waitTimeRow, optSub, absolute_delay])

/-- C4: get_wait_time with is_delivered = true returns exactly one row per
delivered order, in order, and none for any other order; with
is_delivered = false it returns one row per order of the input. -/
theorem wait_time_filters_delivered (orders : List OrderRow) :
    (get_wait_time orders true).map WaitTimeRow.order_id =
      (orders.filter fun o => o.order_status == "delivered").map OrderRow.order_id ∧
    (get_wait_time orders false).map WaitTimeRow.order_id =
      orders.map OrderRow.order_id := by
  constructor
  · show ((orders.filter fun o => o.order_status == "delivered").map waitTimeRow).map
      WaitTimeRow.order_id = _
    rw [List.map_map]
    exact List.map_congr_left fun a _ => rfl
  · show (orders.map waitTimeRow).map WaitTimeRow.order_id = _
    rw [List.map_map]
    exact List.map_congr_left fun a _ => rfl

/-- C10: an order with a missing delivered-to-customer date still appears in
get_wait_time with is_delivered = false, with delay_vs_expected equal to 0
(the comparison of the missing difference with 0 is false, so the zero branch
is taken) while its wait_time stays null. -/
theorem delay_zero_wait_null_when_undelivered (orders : List OrderRow) (o : OrderRow)
    (ho : o ∈ orders) (hnone : o.order_delivered_customer_date = none) :
    waitTimeRow o ∈ get_wait_time orders false ∧
      (waitTimeRow o).delay_vs_expected = 0 ∧ (waitTimeRow o).wait_time = none := by
  refine ⟨?_, ?_, ?_⟩
  · show waitTimeRow o ∈ orders.map waitTimeRow
    exact List.mem_map_of_mem waitTimeRow ho
  · cases h : o.order_estimated_delivery_date <;>
      simp [waitTimeRow, hnone, h, optSub, absolute_delay]
  · cases h : o.order_purchase_timestamp <;>
      simp [waitTimeRow, hnone, h, optSub]

/-- witness for C10 at a concrete undelivered order. -/
theorem delay_zero_wait_null_witness :
    waitTimeRow oW7 ∈ get_wait_time dW7.orders false ∧
      (waitTimeRow oW7).delay_vs_expected = 0 ∧ (waitTimeRow oW7).wait_time = none :=
  delay_zero_wait_null_when_undelivered dW7.orders oW7 (by decide) rfl

/-- C8 counterexample: on a missing directory get_data raises the built-in
FileNotFoundError of os.listdir, and on an empty directory it returns the
empty mapping with no error at all; in neither case is MissingDataError
raised (no such error exists in the source). -/
theorem get_data_missing_counterexample :
    get_data (some []) = Except.ok [] ∧
    get_data none = Except.error PyError.fileNotFoundError ∧
    get_data (some []) ≠ Except.error PyError.missingDataError ∧
    get_data none ≠ Except.error PyError.missingDataError := by
  refine ⟨rfl, rfl, ?_, ?_⟩
  · intro h
    exact Except.noConfusion h
  · intro h
    have h2 : PyError.fileNotFoundError = PyError.missingDataError := by
      injection h
    exact PyError.noConfusion h2

/-- C8 amended: get_data propagates FileNotFoundError when the csv directory
does not exist, and otherwise always returns a mapping, which is empty for an
empty directory; it never raises MissingDataError. -/
theorem get_data_behavior :
    get_data none = Except.error PyError.fileNotFoundError ∧
    get_data (some []) = Except.ok [] ∧
    ∀ files : List String, ∃ m, get_data (some files) = Except.ok m :=
  ⟨rfl, rfl, fun _ => ⟨_, rfl⟩⟩

/-- C6: for every order id of the order_items table, the distinct-seller
count of get_number_sellers never exceeds the row count of
get_number_products. -/
theorem sellers_le_products (items : List OrderItemRow) (oid : String)
    (_hoid : oid ∈ items.map OrderItemRow.order_id) :
    ∀ pr ∈ get_number_products items, ∀ sr ∈ get_number_sellers items,
      pr.order_id = oid → sr.order_id = oid →
      sr.number_of_sellers ≤ pr.number_of_products := by
  intro pr hpr sr hsr hpr2 hsr2
  rw [get_number_products, mem_sortBy, List.mem_map] at hpr
  rw [get_number_sellers, mem_sortBy, List.mem_map] at hsr
  obtain ⟨oidp, hoidp, rfl⟩ := hpr
  obtain ⟨oids, hoids, rfl⟩ := hsr
  have hoe : oids = oidp := hsr2.trans hpr2.symm
  subst hoe
  calc (distinctKeys ((items.filter fun it => it.order_id == oids).map
          OrderItemRow.seller_id)).length
      ≤ ((items.filter fun it => it.order_id == oids).map OrderItemRow.seller_id).length :=
        distinctKeys_length_le _
    _ = (items.filter fun it => it.order_id == oids).length := List.length_map _ _

/-- witness for C6 at an order with two items of one seller. -/
theorem sellers_le_products_witness :
    (⟨"O1", 1⟩ : NumberSellersRow).number_of_sellers ≤
      (⟨"O1", 2⟩ : NumberProductsRow).number_of_products :=
  sellers_le_products itemsW "O1" (by decide) ⟨"O1", 2⟩ (by decide) ⟨"O1", 1⟩ (by decide)
    rfl rfl

/-- every order contributes at least one row to the first outer merge,
keeping its customer id. -/
theorem merge_orders_reviews_left (orders : List OrderRow) (reviews : List ReviewRow)
    (o : OrderRow) (ho : o ∈ orders) :
    ∃ mr ∈ merge_orders_reviews orders reviews,
      mr.order_id = o.order_id ∧ mr.customer_id = some o.customer_id := by
  by_cases hms : (reviews.filter fun r => r.order_id == o.order_id).isEmpty = true
  · refine ⟨{ customer_id := some o.customer_id, order_id := o.order_id, review_id := none },
      ?_, rfl, rfl⟩
    refine List.mem_append_left _ (List.mem_flatMap.mpr ⟨o, ho, ?_⟩)
    simp [hms]
  · have hms2 : (reviews.filter fun r => r.order_id == o.order_id).isEmpty = false := by
      simpa using hms
    have hne : (reviews.filter fun r => r.order_id == o.order_id) ≠ [] := by
      intro h
      rw [h] at hms2
      simp at hms2
    obtain ⟨r, hr⟩ := List.exists_mem_of_ne_nil _ hne
    refine ⟨{ customer_id := some o.customer_id, order_id := o.order_id, review_id := some r.review_id }, ?_, rfl, rfl⟩
    refine List.mem_append_left _ (List.mem_flatMap.mpr ⟨o, ho, ?_⟩)
    simp only [hms2, Bool.false_eq_true, if_false]
    exact List.mem_map_of_mem _ hr

/-- every row of the first merge contributes a row to the second outer merge,
keeping its order, customer and review references. -/
theorem merge_ordrev_items_left (lhs : List OrdRev) (items : List OrderItemRow)
    (mr : OrdRev) (hmr : mr ∈ lhs) :
    ∃ m ∈ merge_ordrev_items lhs items,
      m.order_id = mr.order_id ∧ m.customer_id = mr.customer_id ∧
      m.review_id = mr.review_id := by
  by_cases hms : (items.filter fun it => it.order_id == mr.order_id).isEmpty = true
  · refine ⟨{ customer_id := mr.customer_id, order_id := mr.order_id, review_id := mr.review_id, product_id := none, seller_id := none }, ?_, rfl, rfl, rfl⟩
    refine List.mem_append_left _ (List.mem_flatMap.mpr ⟨mr, hmr, ?_⟩)
    simp [hms]
  · have hms2 : (items.filter fun it => it.order_id == mr.order_id).isEmpty = false := by
      simpa using hms
    have hne : (items.filter fun it => it.order_id == mr.order_id) ≠ [] := by
      intro h
      rw [h] at hms2
      simp at hms2
    obtain ⟨it, hit⟩ := List.exists_mem_of_ne_nil _ hne
    refine ⟨{ customer_id := mr.customer_id, order_id := mr.order_id, review_id := mr.review_id, product_id := some it.product_id, seller_id := some it.seller_id }, ?_, rfl, rfl, rfl⟩
    refine List.mem_append_left _ (List.mem_flatMap.mpr ⟨mr, hmr, ?_⟩)
    simp only [hms2, Bool.false_eq_true, if_false]
    exact List.mem_map_of_mem _ hit

/-- an order with no matching review yields the null-filled review row in the
first outer merge. -/
theorem merge_orders_reviews_no_match (orders : List OrderRow) (reviews : List ReviewRow)
    (o : OrderRow) (ho : o ∈ orders)
    (h : ∀ r ∈ reviews, r.order_id ≠ o.order_id) :
    ({ customer_id := some o.customer_id, order_id := o.order_id,
       review_id := none } : OrdRev) ∈ merge_orders_reviews orders reviews := by
  have hflt : (reviews.filter fun r => r.order_id == o.order_id) = [] :=
    List.filter_eq_nil_iff.mpr fun r hr => by simpa using h r hr
  refine List.mem_append_left _ (List.mem_flatMap.mpr ⟨o, ho, ?_⟩)
  simp [hflt]

/-- a first-merge row with no matching item yields the null-filled item row in
the second outer merge. -/
theorem merge_ordrev_items_no_match (lhs : List OrdRev) (items : List OrderItemRow)
    (mr : OrdRev) (hmr : mr ∈ lhs)
    (h : ∀ it ∈ items, it.order_id ≠ mr.order_id) :
    ({ customer_id := mr.customer_id, order_id := mr.order_id, review_id := mr.review_id,
       product_id := none, seller_id := none } : MatchingRow) ∈
      merge_ordrev_items lhs items := by
  have hflt : (items.filter fun it => it.order_id == mr.order_id) = [] :=
    List.filter_eq_nil_iff.mpr fun it hit => by simpa using h it hit
  refine List.mem_append_left _ (List.mem_flatMap.mpr ⟨mr, hmr, ?_⟩)
  simp [hflt]

/-- C7: the matching table preserves every order of the orders table; an
order lacking reviews and items still appears, with its review, product and
seller references null-filled rather than the row being lost. -/
theorem matching_table_outer (d : Dataset) :
    ∀ o ∈ d.orders,
      (∃ m ∈ get_matching_table d, m.order_id = o.order_id ∧
        m.customer_id = some o.customer_id) ∧
      ((∀ r ∈ d.order_reviews, r.order_id ≠ o.order_id) →
       (∀ it ∈ d.order_items, it.order_id ≠ o.order_id) →
        ({ customer_id := some o.customer_id, order_id := o.order_id, review_id := none,
           product_id := none, seller_id := none } : MatchingRow) ∈
          get_matching_table d) := by
  intro o ho
  constructor
  · obtain ⟨mr, hmr, h1, h2⟩ := merge_orders_reviews_left d.orders d.order_reviews o ho
    obtain ⟨m, hm, g1, g2, g3⟩ := merge_ordrev_items_left _ d.order_items mr hmr
    exact ⟨m, hm, g1.trans h1, g2.trans h2⟩
  · intro hrev hitem
    have hmr := merge_orders_reviews_no_match d.orders d.order_reviews o ho hrev
    exact merge_ordrev_items_no_match _ d.order_items _ hmr fun it hit => hitem it hit

/-- witness for C7 at an order with neither reviews nor items. -/
theorem matching_table_outer_witness :
    ({ customer_id := some "C2", order_id := "O2", review_id := none,
       product_id := none, seller_id := none } : MatchingRow) ∈ get_matching_table dW7 :=
  (matching_table_outer dW7 oW7 (by decide)).2 (by decide) (by decide)

/-- C9 amended: when the review table shares no order id with the orders
table, the first inner join of the training merge collapses to zero rows and
get_training_data silently returns the empty table; no error of any kind is
raised (the embedding is a total function into tables, as the source has no
raise statement). -/
theorem empty_join_returns_empty (d : Dataset) (is_delivered : Bool)
    (hdisj : ∀ r ∈ d.order_reviews, ∀ o ∈ d.orders, r.order_id ≠ o.order_id) :
    get_training_data_no_dist d is_delivered = [] := by
  have h2 : innerJoin WaitTimeRow.order_id ReviewScoreRow.order_id joinWaitReview
      (get_wait_time d.orders is_delivered) (get_review_score d.order_reviews) = [] := by
    apply innerJoin_eq_nil
    intro a ha b hb
    obtain ⟨o, ho, rfl⟩ := mem_get_wait_time ha
    rw [get_review_score, List.mem_map] at hb
    obtain ⟨r, hr, rfl⟩ := hb
    exact beq_eq_false_iff_ne.mpr (hdisj r hr o ho)
  rw [get_training_data_no_dist, training_set, h2]
  rfl

/-- C9 counterexample: a dataset whose reviews reference none of its orders
makes the inner-join chain collapse to zero rows, and get_training_data
returns the plain empty table as an ordinary value instead of failing with
EmptyJoinResultError (which exists nowhere in the source). -/
theorem empty_join_counterexample :
    (cexD9.order_reviews.all fun r =>
      cexD9.orders.all fun o => !(r.order_id == o.order_id)) = true ∧
    get_training_data_no_dist cexD9 true = [] := by
  constructor
  · decide
  · simp only [get_training_data_no_dist, training_set, innerJoin, get_wait_time, waitTimeRow,
      optSub, absolute_delay, get_review_score, get_number_products, get_number_sellers,
      get_price_and_freight, distinctKeys, sortBy, insertBy, cexD9, joinWaitReview,
      joinProducts, joinSellers, joinPriceFreight, TrainingRow.complete, dim_five_star,
      dim_one_star, List.foldl, List.foldr, List.map, List.filter, List.flatMap]

/-- witness for C9 at the concrete disjoint dataset. -/
theorem empty_join_returns_empty_witness : get_training_data_no_dist cexD9 true = [] :=
  empty_join_returns_empty cexD9 true (by decide)

/-- the wait_time column of every merged training row is the wait_time of
some row of get_wait_time (the merges only copy it from the left frame). -/
theorem training_set_wait_time (d : Dataset) (is_delivered : Bool) :
    ∀ r ∈ training_set d is_delivered,
      ∃ w ∈ get_wait_time d.orders is_delivered, r.wait_time = w.wait_time := by
  intro r hr
  rw [training_set] at hr
  obtain ⟨a4, ha4, b5, hb5, heq5, rfl⟩ := mem_innerJoin.mp hr
  obtain ⟨a3, ha3, b4, hb4, heq4, rfl⟩ := mem_innerJoin.mp ha4
  obtain ⟨a2, ha2, b3, hb3, heq3, rfl⟩ := mem_innerJoin.mp ha3
  obtain ⟨a1, ha1, b2, hb2, heq2, rfl⟩ := mem_innerJoin.mp ha2
  exact ⟨a1, ha1, rfl⟩

/-- C5 counterexample: a delivered order whose delivered-to-customer
timestamp precedes its purchase timestamp survives every join and the final
dropna, and its wait_time in the training table is negative (the source
performs no clamping on wait_time). -/
theorem training_wait_time_negative_counterexample :
    (get_training_data_no_dist cexD5 true).map TrainingRow.wait_time = [some (-6)] ∧
    (-6 : ℚ) < 0 := by
  constructor
  · simp only [get_training_data_no_dist, training_set, innerJoin, get_wait_time, waitTimeRow,
      optSub, absolute_delay, get_review_score, get_number_products, get_number_sellers,
      get_price_and_freight, distinctKeys, sortBy, insertBy, cexD5, joinWaitReview,
      joinProducts, joinSellers, joinPriceFreight, TrainingRow.complete, dim_five_star,
      dim_one_star, List.foldl, List.foldr, List.map, List.filter, List.flatMap]
    norm_num
  · norm_num

/-- C5 amended: in the training table built with is_delivered = true (with or
without the distance feature), wait_time is non-negative provided every order
of the input whose purchase and delivered timestamps are both present was
delivered no earlier than purchased; without that data assumption the code
computes a negative wait_time, as the counterexample shows. -/
theorem training_wait_time_nonneg (d : Dataset) (hav : ℚ → ℚ → ℚ → ℚ → ℚ)
    (hvalid : ∀ o ∈ d.orders, ∀ p dl : ℚ, o.order_purchase_timestamp = some p →
        o.order_delivered_customer_date = some dl → p ≤ dl) :
    (∀ r ∈ get_training_data_no_dist d true, ∀ w : ℚ, r.wait_time = some w → 0 ≤ w) ∧
    (∀ r ∈ get_training_data_with_dist d true hav, ∀ w : ℚ, r.wait_time = some w → 0 ≤ w) := by
  have key : ∀ r ∈ training_set d true, ∀ w : ℚ, r.wait_time = some w → 0 ≤ w := by
    intro r hr w hw
    obtain ⟨wt, hwt, hcopy⟩ := training_set_wait_time d true r hr
    obtain ⟨o, ho, rfl⟩ := mem_get_wait_time hwt
    rw [hcopy] at hw
    cases hdl : o.order_delivered_customer_date with
    | none => simp [waitTimeRow, optSub, hdl] at hw
    | some dl =>
      cases hp : o.order_purchase_timestamp with
      | none => simp [waitTimeRow, optSub, hdl, hp] at hw
      | some p =>
        simp only [waitTimeRow, optSub, hdl, hp, Option.some.injEq] at hw
        have hle := hvalid o ho p dl hp hdl
        linarith [hw]
  constructor
  · intro r hr
    exact key r (List.mem_of_mem_filter hr)
  · intro r hr w hw
    have hr2 := List.mem_of_mem_filter hr
    obtain ⟨a, ha, b, hb, hbeq, rfl⟩ := mem_innerJoin.mp hr2
    exact key a ha w hw

/-- witness for C5 amended at a valid concrete dataset whose single training
row has wait_time 5. -/
theorem training_wait_time_nonneg_witness : (0 : ℚ) ≤ 5 :=
  (training_wait_time_nonneg exD hav0
    (by
      intro o ho p dl hp hd
      simp only [exD, List.mem_singleton] at ho
      subst ho
      have hp2 : p = 0 := by injection hp with h; exact h.symm
      have hd2 : dl = 5 := by injection hd with h; exact h.symm
      subst hp2
      subst hd2
      norm_num)).1
    ⟨"O1", some 5, some 4, 1, 1, 0, some 5, 1, 1, 10, 2⟩
    (by
      simp only [get_training_data_no_dist, training_set, innerJoin, get_wait_time,
        waitTimeRow, optSub, absolute_delay, get_review_score, get_number_products,
        get_number_sellers, get_price_and_freight, distinctKeys, sortBy, insertBy, exD,
        joinWaitReview, joinProducts, joinSellers, joinPriceFreight, TrainingRow.complete,
        dim_five_star, dim_one_star, List.foldl, List.foldr, List.map, List.filter,
        List.flatMap]
      norm_num)
    5 rfl

/-- C1: get_training_data is the inner join on order_id of the outputs of
get_wait_time, get_review_score, get_number_products, get_number_sellers and
get_price_and_freight in that order, joined with get_distance_seller_customer
exactly when the distance flag is set, followed by dropping every row with a
null in any column; consequently no row of the result has a missing value in
any column. -/
theorem training_data_null_complete (d : Dataset) (is_delivered : Bool)
    (hav : ℚ → ℚ → ℚ → ℚ → ℚ) :
    get_training_data_no_dist d is_delivered =
      (innerJoin WaitReviewProdSellRow.order_id PriceFreightRow.order_id joinPriceFreight
        (innerJoin WaitReviewProdRow.order_id NumberSellersRow.order_id joinSellers
          (innerJoin WaitReviewRow.order_id NumberProductsRow.order_id joinProducts
            (innerJoin WaitTimeRow.order_id ReviewScoreRow.order_id joinWaitReview
              (get_wait_time d.orders is_delivered) (get_review_score d.order_reviews))
            (get_number_products d.order_items))
          (get_number_sellers d.order_items))
        (get_price_and_freight d.order_items)).filter TrainingRow.complete ∧
    get_training_data_with_dist d is_delivered hav =
      (innerJoin TrainingRow.order_id DistanceRow.order_id joinDistance
        (training_set d is_delivered)
        (get_distance_seller_customer d hav)).filter TrainingRowD.complete ∧
    (∀ r ∈ get_training_data_no_dist d is_delivered,
      r.wait_time.isSome = true ∧ r.expected_wait_time.isSome = true ∧
      r.review_score.isSome = true) ∧
    (∀ r ∈ get_training_data_with_dist d is_delivered hav,
      r.wait_time.isSome = true ∧ r.expected_wait_time.isSome = true ∧
      r.review_score.isSome = true) := by
  refine ⟨rfl, rfl, ?_, ?_⟩
  · intro r hr
    have h := (List.mem_filter.mp hr).2
    simp only [TrainingRow.complete, Bool.and_eq_true] at h
    exact ⟨h.1.1, h.1.2, h.2⟩
  · intro r hr
    have h := (List.mem_filter.mp hr).2
    simp only [TrainingRowD.complete, Bool.and_eq_true] at h
    exact ⟨h.1.1, h.1.2, h.2⟩

/-- witness for C1 at the concrete dataset whose training table has exactly
one, fully populated, row. -/
theorem training_data_null_complete_witness :
    (⟨"O1", some 5, some 4, 1, 1, 0, some 5, 1, 1, 10, 2⟩ : TrainingRow).wait_time.isSome =
      true ∧
    (⟨"O1", some 5, some 4, 1, 1, 0, some 5, 1, 1, 10,
      2⟩ : TrainingRow).expected_wait_time.isSome = true ∧
    (⟨"O1", some 5, some 4, 1, 1, 0, some 5, 1, 1, 10,
      2⟩ : TrainingRow).review_score.isSome = true :=
  (training_data_null_complete exD true hav0).2.2.1
    ⟨"O1", some 5, some 4, 1, 1, 0, some 5, 1, 1, 10, 2⟩
    (by
      simp only [get_training_data_no_dist, training_set, innerJoin, get_wait_time,
        waitTimeRow, optSub, absolute_delay, get_review_score, get_number_products,
        get_number_sellers, get_price_and_freight, distinctKeys, sortBy, insertBy, exD,
        joinWaitReview, joinProducts, joinSellers, joinPriceFreight, TrainingRow.complete,
        dim_five_star, dim_one_star, List.foldl, List.foldr, List.map, List.filter,
        List.flatMap]
      norm_num)

/-- C3 counterexample: in a dataset whose single order has complete
geolocation coverage but no review, the claim's pipeline (drop only rows with
missing coordinates) keeps the order and returns its mean distance, while the
source's dropna removes the row for its null review reference and the order
is absent from the output altogether. -/
theorem distance_dropna_counterexample :
    get_distance_seller_customer cexD3 hav0 = [] ∧
    distance_seller_customer_claimed cexD3 hav0 =
      [{ order_id := "O1", distance_seller_customer := 0 }] := by
  constructor
  · simp only [get_distance_seller_customer, matching_geo_clean, matching_geo,
      MatchingGeoRow.complete, get_matching_table, merge_orders_reviews, merge_ordrev_items,
      sellers_geo, customers_geo, geo_dedup, distinctKeys, innerJoin, cexD3, hav0,
      rowDistance, ratMean, List.foldl, List.foldr, List.map, List.filter, List.flatMap,
      List.filterMap, List.find?, List.isEmpty, List.any]
  · simp only [distance_seller_customer_claimed, MatchingGeoRow.coordsComplete, matching_geo,
      get_matching_table, merge_orders_reviews, merge_ordrev_items,
      sellers_geo, customers_geo, geo_dedup, distinctKeys, innerJoin, cexD3, hav0,
      rowDistance, ratMean, List.foldl, List.foldr, List.map, List.filter, List.flatMap,
      List.filterMap, List.find?, List.isEmpty, List.any]
    norm_num

/-- mapping the zip prefix over the first-occurrence lookup recovers the key
list, whenever every key has a row. -/
theorem filterMap_find_map_zip (geo : List GeoRow) (zs : List ℕ)
    (h : ∀ z ∈ zs, ∃ g ∈ geo, g.geolocation_zip = z) :
    (zs.filterMap fun z => geo.find? fun g => g.geolocation_zip == z).map
      GeoRow.geolocation_zip = zs := by
  induction zs with
  | nil => rfl
  | cons z zs ih =>
    obtain ⟨g0, hg0, hz⟩ := h z (List.mem_cons_self z zs)
    have hsome : (geo.find? fun g => g.geolocation_zip == z).isSome = true :=
      List.find?_isSome.mpr ⟨g0, hg0, by simpa using hz⟩
    obtain ⟨g, hfind⟩ := Option.isSome_iff_exists.mp hsome
    have hzip : g.geolocation_zip = z := by simpa using List.find?_some hfind
    simp only [List.filterMap_cons, hfind, List.map_cons, hzip]
    rw [ih fun z2 hz2 => h z2 (List.mem_cons_of_mem z hz2)]

/-- C3 amended: get_distance_seller_customer deduplicates the geolocation
table to the first-occurring row per zip prefix; then, after the joins, every
row with any missing value in any column is dropped (not only rows with
missing coordinates: a missing review or product reference also removes the
row), the per-row haversine distance is computed, and the result has one row
per surviving order id whose value is the arithmetic mean of the distances
over that order's surviving joined rows (so weighted by item and review
multiplicity, one summand per row). -/
theorem distance_pipeline_amended (d : Dataset) (hav : ℚ → ℚ → ℚ → ℚ → ℚ) :
    (∀ g ∈ geo_dedup d.geolocation,
      g ∈ d.geolocation ∧
      d.geolocation.find? (fun g2 => g2.geolocation_zip == g.geolocation_zip) = some g) ∧
    (geo_dedup d.geolocation).map GeoRow.geolocation_zip =
      distinctKeys (d.geolocation.map GeoRow.geolocation_zip) ∧
    (get_distance_seller_customer d hav).map DistanceRow.order_id =
      distinctKeys ((matching_geo_clean d).map MatchingGeoRow.order_id) ∧
    ∀ r ∈ get_distance_seller_customer d hav,
      r.distance_seller_customer =
        ratMean (((matching_geo_clean d).filter fun x => x.order_id == r.order_id).map
          (rowDistance hav)) := by
  refine ⟨?_, ?_, ?_, ?_⟩
  · intro g hg
    rw [geo_dedup, List.mem_filterMap] at hg
    obtain ⟨z, hz, hfind⟩ := hg
    have hmem := List.mem_of_find?_eq_some hfind
    have hzip : g.geolocation_zip = z := by simpa using List.find?_some hfind
    subst hzip
    exact ⟨hmem, hfind⟩
  · rw [geo_dedup]
    apply filterMap_find_map_zip
    intro z hz
    rw [mem_distinctKeys, List.mem_map] at hz
    exact hz
  · rw [get_distance_seller_customer, List.map_map]
    exact (List.map_congr_left fun a _ => rfl).trans (List.map_id _)
  · intro r hr
    rw [get_distance_seller_customer, List.mem_map] at hr
    obtain ⟨oid, hoid, rfl⟩ := hr
    rfl

/-- witness for C3 amended: the single order's distance row of the concrete
dataset satisfies the grouped-mean characterisation. -/
theorem distance_pipeline_amended_witness :
    (⟨"O1", (0 : ℚ)⟩ : DistanceRow).distance_seller_customer =
      ratMean (((matching_geo_clean exD).filter fun x =>
        x.order_id == (⟨"O1", (0 : ℚ)⟩ : DistanceRow).order_id).map (rowDistance hav0)) :=
  (distance_pipeline_amended exD hav0).2.2.2 ⟨"O1", 0⟩
    (by
      simp only [get_distance_seller_customer, matching_geo_clean, matching_geo,
        MatchingGeoRow.complete, get_matching_table, merge_orders_reviews,
        merge_ordrev_items, sellers_geo, customers_geo, geo_dedup, distinctKeys, innerJoin,
        exD, hav0, rowDistance, ratMean, List.foldl, List.foldr, List.map, List.filter,
        List.flatMap, List.filterMap, List.find?, List.isEmpty, List.any]
      norm_num)

end Olist
